import Mathlib

/-! Meeting-summary relay: the two request handlers of `backend/server.js`.

A shallow embedding of `app.post("/api/generate")` and `app.post("/api/share")`
and of the JavaScript operations they apply to the request body, to the reply
of the completion service and to the result of the mail transport.

Values are JSON values plus `undefined`.  A handler is a function of the request
body and of the behaviour of its external collaborator; it threads a `World`
that records every outbound call and every response written.
-/

namespace MeetingSummary

/-! ## JavaScript values -/

/-- A JavaScript value as the handlers can meet it: what `JSON.parse` yields,
plus `undefined`.  A number is kept as the two things the handlers can observe
of it: whether it is zero, the only falsy number JSON can hold, and the text
that ToString gives for it (so that a fraction or `1e+21` keeps its own
rendering); an object lists its own properties, each name once.  No value is a
function, so a method call succeeds only where the prototype of the receiver
supplies the method. -/
inductive JVal where
  | undefined
  | null
  | bool (b : Bool)
  | num (isZero : Bool) (text : String)
  | str (s : String)
  | arr (xs : List JVal)
  | obj (fields : List (String × JVal))

namespace JVal

/-- ToBoolean: `undefined`, `null`, `false`, `0` and `""` are falsy. -/
def truthy : JVal → Bool
  | undefined => false
  | null => false
  | bool b => b
  | num isZero _ => !isZero
  | str s => s.data != []
  | arr _ => true
  | obj _ => true

/-- The values on which a property access throws a TypeError. -/
def isNullish : JVal → Bool
  | undefined => true
  | null => true
  | _ => false

/-- The value that `JSON.stringify` leaves out of an object. -/
def isUndefined : JVal → Bool
  | undefined => true
  | _ => false

end JVal

open JVal

/-- The number that is the length of an array or of a string: a natural number,
rendered in decimal. -/
def lengthNum (n : Nat) : JVal :=
  .num (n == 0) (toString n)

/-- Own-property lookup in an object. -/
def lookup (k : String) : List (String × JVal) → JVal
  | [] => .undefined
  | (k', v) :: rest => if k' = k then v else lookup k rest

/-- The `length` of a string counts UTF-16 code units. -/
def utf16Length (s : String) : Nat :=
  (s.data.map (fun c => if c.val.toNat < 65536 then 1 else 2)).sum

/-- Reads `v.k` (or `v?.k`) for the property names this program reads:
`transcript`, `prompt`, `summary`, `to`, `error`, `message`, `choices`,
`content`, `text`, `length`, `response`, `messageId`.  None of them is
inherited from a prototype, so an object answers with its own property, an
array and a string answer only to `length`, and everything else is `undefined`.
On `undefined` and `null` the optional form `?.` gives `undefined`; the plain
form throws, which the callers test with `isNullish` first. -/
def getProp (v : JVal) (k : String) : JVal :=
  match v with
  | .obj fields => lookup k fields
  | .arr xs => if k = "length" then lengthNum xs.length else .undefined
  | .str s => if k = "length" then lengthNum (utf16Length s) else .undefined
  | _ => .undefined

/-- Reads `v?.[0]`: the first element of an array, the property `"0"` of an
object, the first character of a string. -/
def getIndex0 (v : JVal) : JVal :=
  match v with
  | .arr (x :: _) => x
  | .obj fields => lookup "0" fields
  | .str s =>
    match s.data with
    | [] => .undefined
    | c :: _ => .str (String.mk [c])
  | _ => .undefined

/-! ## Strings -/

/-- WhiteSpace and LineTerminator code points, the ones `trim` strips. -/
def isJsSpace (c : Char) : Bool :=
  let n := c.val.toNat
  n = 9 || n = 10 || n = 11 || n = 12 || n = 13 || n = 32 || n = 160 ||
  n = 5760 || (8192 ≤ n && n ≤ 8202) || n = 8232 || n = 8233 || n = 8239 ||
  n = 8287 || n = 12288 || n = 65279

/-- Removes trailing white space. -/
def trimEnd (cs : List Char) : List Char :=
  (cs.reverse.dropWhile isJsSpace).reverse

/-- Function `String.prototype.trim` on the characters of a string. -/
def trimChars (cs : List Char) : List Char :=
  trimEnd (cs.dropWhile isJsSpace)

/-- Function `String.prototype.trim`. -/
def jsTrim (s : String) : String :=
  String.mk (trimChars s.data)

/-- Splitting on a separator character: the pieces between its occurrences. -/
def splitChars (sep : Char) : List Char → List (List Char)
  | [] => [[]]
  | c :: cs =>
    if c = sep then [] :: splitChars sep cs
    else
      match splitChars sep cs with
      | [] => [[c]]
      | p :: ps => (c :: p) :: ps

/-- The call `s.split(",")`. -/
def jsSplitComma (s : String) : List String :=
  (splitChars ',' s.data).map String.mk

/-- The call `v.trim()`; it throws unless `v` is a string, since no JSON value
holds a function. -/
def callTrim : JVal → Option String
  | .str s => some (jsTrim s)
  | _ => none

/-- The call `v?.trim()`: `undefined` on `undefined` and `null`. -/
def optTrim (v : JVal) : Option JVal :=
  if v.isNullish then some .undefined else (callTrim v).map .str

/-- Whether an object has an own property `k`. -/
def hasKey (k : String) : List (String × JVal) → Bool
  | [] => false
  | (k', _) :: rest => k' = k || hasKey k rest

mutual
/-- ToString, as a template literal applies it to an interpolated value.  An
array is joined with commas, `undefined` and `null` elements giving the empty
string.  An object renders through the inherited `toString`, unless an own
property of that name (never a function in a JSON value) hides it, in which
case the conversion throws. -/
def toStr : JVal → Option String
  | .undefined => some "undefined"
  | .null => some "null"
  | .bool b => some (if b then "true" else "false")
  | .num _ text => some text
  | .str s => some s
  | .arr xs => joinStr xs
  | .obj fields => if hasKey "toString" fields then none else some "[object Object]"
/-- The call `xs.join(",")` behind the string rendering of an array. -/
def joinStr : List JVal → Option String
  | [] => some ""
  | x :: rest =>
    match (if x.isNullish then some "" else toStr x), rest, joinStr rest with
    | some a, [], _ => some a
    | some a, _ :: _, some b => some (a ++ "," ++ b)
    | _, _, _ => none
end

/-! ## The environment and the external collaborators -/

/-- The process environment variables the handlers read; `none` is an unset
variable, which reads as `undefined`. -/
structure Env where
  GROQ_API_KEY : Option String
  GMAIL_USER : Option String
  GMAIL_PASS : Option String

/-- Rendering of an environment variable inside a template literal. -/
def envStr : Option String → String
  | some s => s
  | none => "undefined"

/-- One entry of the `messages` array of a chat-completion request. -/
structure Message where
  role : String
  content : String
deriving DecidableEq

/-- The object `body` of the generate handler; `temperature` is kept in tenths. -/
structure ChatBody where
  model : String
  temperatureTenths : Nat
  messages : List Message
deriving DecidableEq

/-- The arguments of the call to `fetch`; the body is kept before
`JSON.stringify`. -/
structure FetchRequest where
  url : String
  method : String
  headers : List (String × String)
  body : ChatBody
deriving DecidableEq

/-- What the call to the completion service does: `fetch` rejects, or
`resp.json()` rejects because the reply is not JSON, or it yields a value. -/
inductive FetchResult where
  | rejected
  | unparsable
  | json (data : JVal)

/-- The argument of `nodemailer.createTransport`. -/
structure Transport where
  service : String
  user : Option String
  pass : Option String

/-- The object `mailOptions` of the share handler; `sender` is its property
`from` and `recipients` its property `to`. -/
structure MailOptions where
  sender : Option String
  recipients : JVal
  subject : String
  html : String

/-- One call of `transporter.sendMail`. -/
structure MailSend where
  transport : Transport
  options : MailOptions

/-- What `transporter.sendMail` does: it resolves to an info value or throws. -/
inductive SendResult where
  | resolved (info : JVal)
  | rejected

/-! ## Responses and the recorded world -/

/-- One response written by a handler: the status and the JSON body. -/
structure Response where
  status : Nat
  body : JVal

/-- Everything a handler did that is visible from outside, in order. -/
structure World where
  fetches : List FetchRequest
  mails : List MailSend
  responses : List Response

/-- The world before the handler runs. -/
def World.start : World := ⟨[], [], []⟩

/-- How a block of code ended. -/
inductive Completion where
  | normal
  | threw
deriving DecidableEq

/-- The call `res.status(status).json(fields)`: `JSON.stringify` leaves out the
properties whose value is `undefined`. -/
def resJson (status : Nat) (fields : List (String × JVal)) (w : World) : Completion × World :=
  (.normal, { w with responses := w.responses ++
      [⟨status, .obj (fields.filter fun f => !f.2.isUndefined)⟩] })

/-- Function `badRequest` of `server.js`. -/
def badRequest (msg : String) (w : World) : Completion × World :=
  resJson 400 [("ok", .bool false), ("error", .str msg)] w

/-! ## The generate handler -/

/-- The default instruction. -/
def defaultPrompt : String := "Summarize in bullet points for executives."

/-- The constant `systemPrompt`. -/
def systemPrompt : String :=
  "You are a meeting summarizer. \n- Follow user instructions exactly.\n- Prefer bullet points.\n- Include Action Items, Decisions, Open Questions if present.\n- Do not invent info."

/-- The expression `(prompt && prompt.trim()) || "Summarize in bullet points for
executives."`; `none` when `prompt.trim()` throws. -/
def userPromptOf (prompt : JVal) : Option String :=
  if prompt.truthy then
    match callTrim prompt with
    | none => none
    | some t => some (if (JVal.str t).truthy then t else defaultPrompt)
  else some defaultPrompt

/-- The object `body` for a given instruction and rendered transcript. -/
def chatBody (userPrompt transcript : String) : ChatBody :=
  { model := "llama-3.3-70b-versatile"
    temperatureTenths := 2
    messages :=
      [ { role := "system", content := systemPrompt },
        { role := "user",
          content := "Instruction: " ++ userPrompt ++ "\n\nTranscript:\n" ++ transcript } ] }

/-- The arguments of the call to `fetch`. -/
def fetchRequest (env : Env) (body : ChatBody) : FetchRequest :=
  { url := "https://api.groq.com/openai/v1/chat/completions"
    method := "POST"
    headers := [("Content-Type", "application/json"),
                ("Authorization", "Bearer " ++ envStr env.GROQ_API_KEY)]
    body := body }

/-- The expression `data?.choices?.[0]`. -/
def firstChoice (data : JVal) : JVal :=
  getIndex0 (getProp data "choices")

/-- The expression `data?.choices?.[0]?.message?.content`. -/
def contentOf (data : JVal) : JVal :=
  getProp (getProp (firstChoice data) "message") "content"

/-- The expression `data?.choices?.[0]?.text`. -/
def textOf (data : JVal) : JVal :=
  getProp (firstChoice data) "text"

/-- The expression `data?.choices?.[0]?.message?.content?.trim() ||
data?.choices?.[0]?.text?.trim()`; `none` when a `trim` call throws. -/
def summaryOf (data : JVal) : Option JVal :=
  match optTrim (contentOf data) with
  | none => none
  | some a => if a.truthy then some a else optTrim (textOf data)

/-- The part of the `try` block after `resp.json()` has yielded `data`. -/
def relayReply (data : JVal) (w1 : World) : Completion × World :=
  if data.isNullish then (.threw, w1)
  else if (getProp data "error").truthy then
    resJson 500 [("ok", .bool false), ("error", getProp (getProp data "error") "message")] w1
  else
    match summaryOf data with
    | none => (.threw, w1)
    | some summary =>
      if !summary.truthy then
        resJson 500 [("ok", .bool false), ("error", .str "Groq returned no summary content")] w1
      else resJson 200 [("ok", .bool true), ("summary", summary)] w1

/-- The `try` block of the generate handler. -/
def generateTry (env : Env) (reqBody : JVal) (groq : FetchRequest → FetchResult)
    (w : World) : Completion × World :=
  if reqBody.isNullish then (.threw, w)
  else
    let transcript := getProp reqBody "transcript"
    let prompt := getProp reqBody "prompt"
    if !transcript.truthy then badRequest "Transcript required" w
    else
      match userPromptOf prompt with
      | none => (.threw, w)
      | some userPrompt =>
        match toStr transcript with
        | none => (.threw, w)
        | some t =>
          let request := fetchRequest env (chatBody userPrompt t)
          let w1 := { w with fetches := w.fetches ++ [request] }
          match groq request with
          | .rejected => (.threw, w1)
          | .unparsable => (.threw, w1)
          | .json data => relayReply data w1

/-- The handler of `POST /api/generate`: the `try` block and its `catch`. -/
def generate (env : Env) (reqBody : JVal) (groq : FetchRequest → FetchResult)
    (w : World) : Completion × World :=
  match generateTry env reqBody groq w with
  | (.threw, w1) =>
    resJson 500 [("ok", .bool false), ("error", .str "Unexpected server error")] w1
  | (.normal, w1) => (.normal, w1)

/-! ## The share handler -/

/-- The expression `Array.isArray(to) ? to : to.split(",").map((e) => e.trim())`,
with `toVal` for the source variable `to`; `none` when `to.split` is not a
function. -/
def recipientsOf (toVal : JVal) : Option JVal :=
  match toVal with
  | .arr xs => some (.arr xs)
  | .str s => some (.arr ((jsSplitComma s).map fun e => .str (jsTrim e)))
  | _ => none

/-- The template literal `html` around the rendered summary. -/
def mailHtml (summary : String) : String :=
  "<div style=\"font-family:Arial,sans-serif\">\n        <h2>Meeting Summary</h2>\n        <div style=\"white-space:pre-wrap\">" ++ summary ++ "</div>\n      </div>"

/-- The transport the handler creates; `nodemailer.createTransport` only builds
the object, it makes no call. -/
def gmailTransport (env : Env) : Transport :=
  { service := "gmail", user := env.GMAIL_USER, pass := env.GMAIL_PASS }

/-- The call of `transporter.sendMail(mailOptions)` for given recipients and
rendered summary. -/
def mailSend (env : Env) (recipients : JVal) (summary : String) : MailSend :=
  { transport := gmailTransport env
    options :=
      { sender := env.GMAIL_USER
        recipients := recipients
        subject := "Meeting Summary"
        html := mailHtml summary } }

/-- The `try` block of the share handler. -/
def shareTry (env : Env) (reqBody : JVal) (sendMail : MailSend → SendResult)
    (w : World) : Completion × World :=
  if reqBody.isNullish then (.threw, w)
  else
    let summary := getProp reqBody "summary"
    let toVal := getProp reqBody "to"
    if !summary.truthy then badRequest "Summary required" w
    else if !(getProp toVal "length").truthy then badRequest "Recipients required" w
    else
      match recipientsOf toVal with
      | none => (.threw, w)
      | some recipients =>
        match toStr summary with
        | none => (.threw, w)
        | some s =>
          let send := mailSend env recipients s
          let w1 := { w with mails := w.mails ++ [send] }
          match sendMail send with
          | .rejected => (.threw, w1)
          | .resolved info =>
            if info.isNullish then (.threw, w1)
            else resJson 200 [("ok", .bool true), ("id", getProp info "messageId")] w1

/-- The handler of `POST /api/share`: the `try` block and its `catch`. -/
def share (env : Env) (reqBody : JVal) (sendMail : MailSend → SendResult)
    (w : World) : Completion × World :=
  match shareTry env reqBody sendMail w with
  | (.threw, w1) =>
    resJson 500 [("ok", .bool false), ("error", .str "Email send failed")] w1
  | (.normal, w1) => (.normal, w1)

/-! ## The recipient check of the browser form -/

/-- The expression `emails.split(",").map((e) => e.trim()).filter(Boolean)` of
`sendEmail` in `App.jsx`; the form refuses to post when it is empty. -/
def sendEmailRecipients (emails : String) : List String :=
  ((jsSplitComma emails).map jsTrim).filter fun e => e.data != []

/-! ## Theorems -/

/-- A string value is truthy exactly when it is not empty. -/
theorem truthy_str (s : String) : (JVal.str s).truthy = true ↔ s ≠ "" := by
  cases s with
  | mk cs => cases cs <;> simp [JVal.truthy, String.ext_iff]

/-- A body with a string property is an object, hence present. -/
theorem not_isNullish_of_getProp_str {v : JVal} {k s : String} (h : getProp v k = .str s) :
    v.isNullish = false := by
  cases v <;> simp_all [JVal.isNullish, getProp]

/-- The instruction chosen for an absent `prompt`. -/
theorem userPromptOf_undefined : userPromptOf .undefined = some defaultPrompt := by
  simp [userPromptOf, JVal.truthy]

/-- The instruction chosen for a textual `prompt`: its trim, unless blank. -/
theorem userPromptOf_str (P : String) :
    userPromptOf (.str P) = some (if jsTrim P = "" then defaultPrompt else jsTrim P) := by
  by_cases hP : P = ""
  · subst hP
    have : jsTrim "" = "" := by decide
    simp [userPromptOf, JVal.truthy, this]
  · have h1 : (JVal.str P).truthy = true := (truthy_str P).2 hP
    by_cases ht : jsTrim P = ""
    · simp [userPromptOf, h1, callTrim, ht, JVal.truthy]
    · have h2 : (JVal.str (jsTrim P)).truthy = true := (truthy_str _).2 ht
      simp [userPromptOf, h1, callTrim, h2, ht]

/-- The run of the generate handler on a request with a non-empty textual
transcript and an absent or textual prompt, when the completion service answers
with the JSON value `data`: one outbound call, then the relay of the reply. -/
theorem generate_of_reply (env : Env) (reqBody : JVal) (groq : FetchRequest → FetchResult)
    (T : String) (data : JVal)
    (ht : getProp reqBody "transcript" = .str T) (hT : T ≠ "")
    (hp : getProp reqBody "prompt" = .undefined ∨ ∃ P, getProp reqBody "prompt" = .str P)
    (hg : ∀ r, groq r = .json data) :
    ∃ up, userPromptOf (getProp reqBody "prompt") = some up ∧
      generateTry env reqBody groq World.start =
        relayReply data
          { fetches := [fetchRequest env (chatBody up T)], mails := [], responses := [] } := by
  have hb := not_isNullish_of_getProp_str ht
  have htr : (JVal.str T).truthy = true := (truthy_str T).2 hT
  obtain ⟨up, hup⟩ : ∃ up, userPromptOf (getProp reqBody "prompt") = some up := by
    rcases hp with hp | ⟨P, hp⟩
    · exact ⟨_, by rw [hp]; exact userPromptOf_undefined⟩
    · exact ⟨_, by rw [hp]; exact userPromptOf_str P⟩
  refine ⟨up, hup, ?_⟩
  simp [generateTry, hb, ht, htr, hup, toStr, hg, World.start]

/-! ### Trimming -/

/-- Trimming at the end drops the longest white-space suffix. -/
theorem trimEnd_eq_rdropWhile (cs : List Char) : trimEnd cs = cs.rdropWhile isJsSpace := rfl

/-- Trimming leaves nothing exactly when every character is white space. -/
theorem trimChars_eq_nil_iff (cs : List Char) :
    trimChars cs = [] ↔ ∀ c ∈ cs, isJsSpace c = true := by
  unfold trimChars
  rw [trimEnd_eq_rdropWhile, List.rdropWhile_eq_nil_iff]
  constructor
  · intro h
    rw [← List.dropWhile_eq_nil_iff]
    by_contra hne
    have h1 := List.head_dropWhile_not isJsSpace cs hne
    have h2 := h _ (List.head_mem hne)
    simp [h1] at h2
  · intro h
    have : cs.dropWhile isJsSpace = [] := List.dropWhile_eq_nil_iff.2 h
    simp [this]

/-- A string trims to the empty string exactly when it is blank. -/
theorem jsTrim_eq_empty_iff (s : String) :
    jsTrim s = "" ↔ ∀ c ∈ s.data, isJsSpace c = true := by
  rw [← trimChars_eq_nil_iff]
  simp [jsTrim, String.ext_iff]

/-- The first character of a trimmed string is not white space. -/
theorem trimChars_head_not_space (cs : List Char) (c : Char)
    (h : (trimChars cs).head? = some c) : isJsSpace c = false := by
  have hpre : trimChars cs <+: cs.dropWhile isJsSpace := by
    unfold trimChars
    rw [trimEnd_eq_rdropWhile]
    exact List.rdropWhile_prefix _ _
  obtain ⟨t, ht⟩ := hpre
  cases htc : trimChars cs with
  | nil => simp [htc] at h
  | cons a rest =>
    rw [htc] at h ht
    simp at h
    subst h
    have hne : cs.dropWhile isJsSpace ≠ [] := by rw [← ht]; simp
    have := List.head_dropWhile_not isJsSpace cs hne
    simpa [← ht] using this

/-- The last character of a trimmed string is not white space. -/
theorem trimChars_getLast_not_space (cs : List Char) (c : Char)
    (h : (trimChars cs).getLast? = some c) : isJsSpace c = false := by
  have hne : trimChars cs ≠ [] := by
    intro h0; simp [h0] at h
  rw [List.getLast?_eq_getLast _ hne] at h
  simp at h
  subst h
  have := List.rdropWhile_last_not isJsSpace (cs.dropWhile isJsSpace) hne
  simpa using this

/-! ### Splitting -/

/-- Splitting always yields at least one piece. -/
theorem splitChars_ne_nil (sep : Char) (cs : List Char) : splitChars sep cs ≠ [] := by
  induction cs with
  | nil => simp [splitChars]
  | cons c cs ih =>
    unfold splitChars
    split_ifs
    · simp
    · split <;> simp

/-- There is one piece more than separators. -/
theorem splitChars_length (sep : Char) (cs : List Char) :
    (splitChars sep cs).length = cs.count sep + 1 := by
  induction cs with
  | nil => simp [splitChars]
  | cons c cs ih =>
    unfold splitChars
    by_cases h : c = sep
    · subst h; simp [ih]
    · have h' : sep ≠ c := fun e => h e.symm
      rw [if_neg h, List.count_cons_of_ne h']
      cases hs : splitChars sep cs with
      | nil => exact absurd hs (splitChars_ne_nil sep cs)
      | cons p ps => rw [hs] at ih; simpa using ih

/-- Joining the pieces with the separator gives the input back. -/
theorem splitChars_intercalate (sep : Char) (cs : List Char) :
    List.intercalate [sep] (splitChars sep cs) = cs := by
  induction cs with
  | nil => simp [splitChars, List.intercalate]
  | cons c cs ih =>
    unfold splitChars
    by_cases h : c = sep
    · subst h
      rw [if_pos rfl]
      cases hs : splitChars c cs with
      | nil => exact absurd hs (splitChars_ne_nil c cs)
      | cons p ps =>
        rw [hs] at ih
        simp [List.intercalate, List.intersperse] at ih ⊢
        exact ih
    · rw [if_neg h]
      cases hs : splitChars sep cs with
      | nil => exact absurd hs (splitChars_ne_nil sep cs)
      | cons p ps =>
        rw [hs] at ih
        cases ps with
        | nil => simp [List.intercalate, List.intersperse] at ih ⊢; exact ih
        | cons q qs => simp [List.intercalate, List.intersperse] at ih ⊢; exact ih

/-- No piece contains the separator. -/
theorem splitChars_no_sep (sep : Char) (cs : List Char) :
    ∀ p ∈ splitChars sep cs, sep ∉ p := by
  induction cs with
  | nil => simp [splitChars]
  | cons c cs ih =>
    unfold splitChars
    by_cases h : c = sep
    · subst h
      rw [if_pos rfl]
      intro p hp
      rcases List.mem_cons.1 hp with rfl | hp
      · simp
      · exact ih p hp
    · rw [if_neg h]
      cases hs : splitChars sep cs with
      | nil => exact absurd hs (splitChars_ne_nil sep cs)
      | cons q qs =>
        rw [hs] at ih
        intro p hp
        rcases List.mem_cons.1 hp with rfl | hp
        · have := ih q (List.mem_cons_self _ _)
          simp [this, Ne.symm h]
        · exact ih p (List.mem_cons_of_mem _ hp)

/-- A string has length zero exactly when it is empty. -/
theorem utf16Length_eq_zero_iff (s : String) : utf16Length s = 0 ↔ s = "" := by
  cases s with
  | mk cs =>
    cases cs with
    | nil => simp [utf16Length]
    | cons c rest =>
      constructor
      · intro h
        simp only [utf16Length, List.map_cons, List.sum_cons] at h
        split_ifs at h <;> omega
      · intro h
        simp [String.ext_iff] at h

/-- The recipient check passes on a non-empty string. -/
theorem truthy_length_str {s : String} (h : s ≠ "") :
    (getProp (.str s) "length").truthy = true := by
  have : utf16Length s ≠ 0 := fun h0 => h ((utf16Length_eq_zero_iff s).1 h0)
  simp [getProp, lengthNum, JVal.truthy, this]

/-- The recipient check passes on a non-empty list. -/
theorem truthy_length_arr {xs : List JVal} (h : xs ≠ []) :
    (getProp (.arr xs) "length").truthy = true := by
  cases xs with
  | nil => exact absurd rfl h
  | cons x rest => simp [getProp, lengthNum, JVal.truthy]

/-- The optional chains starting at a reply that is `undefined` or `null` give
`undefined`. -/
theorem contentOf_of_isNullish {data : JVal} (h : data.isNullish = true) :
    contentOf data = .undefined := by
  cases data <;> simp_all [JVal.isNullish, contentOf, firstChoice, getProp, getIndex0]

/-- The relay of a reply makes no outbound call. -/
theorem relayReply_fetches (data : JVal) (w : World) :
    (relayReply data w).2.fetches = w.fetches := by
  unfold relayReply
  split_ifs
  · rfl
  · rfl
  · split
    · rfl
    · split_ifs <;> rfl

/-- The `catch` block of the generate handler leaves the outbound calls alone. -/
theorem generate_fetches (env : Env) (reqBody : JVal) (groq : FetchRequest → FetchResult)
    (w : World) :
    (generate env reqBody groq w).2.fetches = (generateTry env reqBody groq w).2.fetches := by
  unfold generate
  split <;> simp_all [resJson]

/-- A `trim` through `?.` on an absent or blank text gives a falsy value. -/
theorem optTrim_blank {v : JVal}
    (h : v.isNullish = true ∨ ∃ x, v = .str x ∧ jsTrim x = "") :
    ∃ a, optTrim v = some a ∧ a.truthy = false := by
  rcases h with h | ⟨x, rfl, hx⟩
  · exact ⟨.undefined, by simp [optTrim, h], rfl⟩
  · exact ⟨.str "", by simp [optTrim, JVal.isNullish, callTrim, hx], rfl⟩

/-- A `trim` through `?.` on a text that is not blank gives the trimmed text. -/
theorem optTrim_text {x : String} (hx : jsTrim x ≠ "") :
    optTrim (.str x) = some (.str (jsTrim x)) ∧ (JVal.str (jsTrim x)).truthy = true :=
  ⟨by simp [optTrim, JVal.isNullish, callTrim], (truthy_str _).2 hx⟩

/-- The outbound call of the generate handler on a request with a non-empty
textual transcript whose instruction evaluates to `up`. -/
theorem generate_fetches_of_text (env : Env) (reqBody : JVal)
    (groq : FetchRequest → FetchResult) (T up : String)
    (ht : getProp reqBody "transcript" = .str T) (hT : T ≠ "")
    (hup : userPromptOf (getProp reqBody "prompt") = some up) :
    (generate env reqBody groq World.start).2.fetches = [fetchRequest env (chatBody up T)] := by
  have hb := not_isNullish_of_getProp_str ht
  have htr : (JVal.str T).truthy = true := (truthy_str T).2 hT
  rw [generate_fetches]
  simp only [generateTry, hb, ht, htr, hup, toStr, World.start]
  simp only [Bool.false_eq_true, if_false, Bool.not_true, List.nil_append]
  split
  · rfl
  · rfl
  · rw [relayReply_fetches]

/-- The run of the share handler on a request with a non-empty textual summary
whose recipient input passes the check and normalises to `recipients`: one
send, then the response to its result. -/
theorem shareTry_of_text (env : Env) (reqBody : JVal) (sendMail : MailSend → SendResult)
    (S : String) (recipients : JVal)
    (hs : getProp reqBody "summary" = .str S) (hS : S ≠ "")
    (hlen : (getProp (getProp reqBody "to") "length").truthy = true)
    (hrec : recipientsOf (getProp reqBody "to") = some recipients) :
    shareTry env reqBody sendMail World.start =
      match sendMail (mailSend env recipients S) with
      | .rejected =>
        (.threw, { fetches := [], mails := [mailSend env recipients S], responses := [] })
      | .resolved info =>
        if info.isNullish then
          (.threw, { fetches := [], mails := [mailSend env recipients S], responses := [] })
        else
          resJson 200 [("ok", .bool true), ("id", getProp info "messageId")]
            { fetches := [], mails := [mailSend env recipients S], responses := [] } := by
  have hb := not_isNullish_of_getProp_str hs
  have hst : (JVal.str S).truthy = true := (truthy_str S).2 hS
  simp [shareTry, hb, hs, hst, hlen, hrec, toStr, World.start]

/-- The mails recorded by the share handler on such a request. -/
theorem share_mails_of_text (env : Env) (reqBody : JVal) (sendMail : MailSend → SendResult)
    (S : String) (recipients : JVal)
    (hs : getProp reqBody "summary" = .str S) (hS : S ≠ "")
    (hlen : (getProp (getProp reqBody "to") "length").truthy = true)
    (hrec : recipientsOf (getProp reqBody "to") = some recipients) :
    (share env reqBody sendMail World.start).2.mails = [mailSend env recipients S] := by
  unfold share
  rw [shareTry_of_text env reqBody sendMail S recipients hs hS hlen hrec]
  cases sendMail (mailSend env recipients S) with
  | rejected => rfl
  | resolved info => cases hn : info.isNullish <;> simp [hn, resJson]

/-! ### Every path through the handlers -/

/-- The three outcomes of `v?.trim()`. -/
theorem optTrim_cases (v : JVal) :
    optTrim v = none ∨ (v.isNullish = true ∧ optTrim v = some .undefined) ∨
      ∃ x, v = .str x ∧ optTrim v = some (.str (jsTrim x)) := by
  cases v <;> simp [optTrim, JVal.isNullish, callTrim]

/-- The outcomes of the summary expression: a `trim` call throws, or the value
is falsy, or it is a non-empty trimmed text taken from the content, or from the
legacy text when the content is absent or blank. -/
theorem summaryOf_cases (data : JVal) :
    summaryOf data = none ∨
    (∃ a, summaryOf data = some a ∧ a.truthy = false) ∨
    (∃ s, summaryOf data = some (.str s) ∧ s ≠ "" ∧
      ((∃ x, contentOf data = .str x ∧ jsTrim x ≠ "" ∧ s = jsTrim x) ∨
       (((contentOf data).isNullish = true ∨ ∃ x, contentOf data = .str x ∧ jsTrim x = "") ∧
          ∃ t, textOf data = .str t ∧ s = jsTrim t))) := by
  have fallback : ∀ a, optTrim (contentOf data) = some a → a.truthy = false →
      ((contentOf data).isNullish = true ∨ ∃ x, contentOf data = .str x ∧ jsTrim x = "") →
      (summaryOf data = none ∨
        (∃ a, summaryOf data = some a ∧ a.truthy = false) ∨
        (∃ s, summaryOf data = some (.str s) ∧ s ≠ "" ∧
          ((∃ x, contentOf data = .str x ∧ jsTrim x ≠ "" ∧ s = jsTrim x) ∨
           (((contentOf data).isNullish = true ∨
                ∃ x, contentOf data = .str x ∧ jsTrim x = "") ∧
              ∃ t, textOf data = .str t ∧ s = jsTrim t)))) := by
    intro a ha hat hblank
    have hs : summaryOf data = optTrim (textOf data) := by simp [summaryOf, ha, hat]
    rcases optTrim_cases (textOf data) with h | ⟨-, h⟩ | ⟨t, ht, h⟩
    · exact Or.inl (by rw [hs, h])
    · exact Or.inr (Or.inl ⟨.undefined, by rw [hs, h], rfl⟩)
    · by_cases hb : jsTrim t = ""
      · exact Or.inr (Or.inl ⟨.str (jsTrim t), by rw [hs, h], by rw [hb]; rfl⟩)
      · exact Or.inr (Or.inr ⟨jsTrim t, by rw [hs, h], hb, Or.inr ⟨hblank, t, ht, rfl⟩⟩)
  rcases optTrim_cases (contentOf data) with h | ⟨hn, h⟩ | ⟨x, hx, h⟩
  · exact Or.inl (by simp [summaryOf, h])
  · exact fallback _ h rfl (Or.inl hn)
  · by_cases hb : jsTrim x = ""
    · exact fallback _ h (by rw [hb]; rfl) (Or.inr ⟨x, hx, hb⟩)
    · have htr : (JVal.str (jsTrim x)).truthy = true := (truthy_str _).2 hb
      exact Or.inr (Or.inr ⟨jsTrim x, by simp [summaryOf, h, htr], hb, Or.inl ⟨x, hx, hb, rfl⟩⟩)

/-- The outcomes of the relay of a reply. -/
theorem relayReply_cases (data : JVal) (w : World) :
    relayReply data w = (.threw, w) ∨
    ((getProp data "error").truthy = true ∧
      relayReply data w =
        resJson 500
          [("ok", .bool false), ("error", getProp (getProp data "error") "message")] w) ∨
    relayReply data w =
      resJson 500 [("ok", .bool false), ("error", .str "Groq returned no summary content")] w ∨
    (∃ s, relayReply data w = resJson 200 [("ok", .bool true), ("summary", .str s)] w ∧
      s ≠ "" ∧ (getProp data "error").truthy = false ∧
      ((∃ x, contentOf data = .str x ∧ jsTrim x ≠ "" ∧ s = jsTrim x) ∨
       (((contentOf data).isNullish = true ∨ ∃ x, contentOf data = .str x ∧ jsTrim x = "") ∧
          ∃ t, textOf data = .str t ∧ s = jsTrim t))) := by
  by_cases hd : data.isNullish = true
  · exact Or.inl (by simp [relayReply, hd])
  · by_cases he : (getProp data "error").truthy = true
    · exact Or.inr (Or.inl ⟨he, by simp [relayReply, hd, he]⟩)
    · rcases summaryOf_cases data with h | ⟨a, h, ha⟩ | ⟨s, h, hs, hprov⟩
      · exact Or.inl (by simp [relayReply, hd, he, h])
      · exact Or.inr (Or.inr (Or.inl (by simp [relayReply, hd, he, h, ha])))
      · have htr : (JVal.str s).truthy = true := (truthy_str s).2 hs
        exact Or.inr (Or.inr (Or.inr
          ⟨s, by simp [relayReply, hd, he, h, htr], hs, by simpa using he, hprov⟩))

/-- The outcomes of the `try` block of the generate handler: the validation
answer, an exception before any response, or the relay of a reply that the
completion service gave to the one outbound call. -/
theorem generateTry_cases (env : Env) (reqBody : JVal) (groq : FetchRequest → FetchResult) :
    ((reqBody.isNullish = false ∧ (getProp reqBody "transcript").truthy = false) ∧
      generateTry env reqBody groq World.start = badRequest "Transcript required" World.start) ∨
    (¬ (reqBody.isNullish = false ∧ (getProp reqBody "transcript").truthy = false) ∧
      ∃ w, generateTry env reqBody groq World.start = (.threw, w) ∧ w.responses = []) ∨
    (¬ (reqBody.isNullish = false ∧ (getProp reqBody "transcript").truthy = false) ∧
      ∃ req data, groq req = .json data ∧
        generateTry env reqBody groq World.start =
          relayReply data { fetches := [req], mails := [], responses := [] }) := by
  by_cases hb : reqBody.isNullish = true
  · exact Or.inr (Or.inl ⟨by simp [hb], World.start, by simp [generateTry, hb], rfl⟩)
  · by_cases ht : (getProp reqBody "transcript").truthy = true
    · have hV : ¬ (reqBody.isNullish = false ∧ (getProp reqBody "transcript").truthy = false) := by
        simp [ht]
      cases hup : userPromptOf (getProp reqBody "prompt") with
      | none => exact Or.inr (Or.inl ⟨hV, World.start, by simp [generateTry, hb, ht, hup], rfl⟩)
      | some up =>
        cases hts : toStr (getProp reqBody "transcript") with
        | none =>
          exact Or.inr (Or.inl ⟨hV, World.start, by simp [generateTry, hb, ht, hup, hts], rfl⟩)
        | some t =>
          cases hg : groq (fetchRequest env (chatBody up t)) with
          | rejected =>
            exact Or.inr (Or.inl ⟨hV, _,
              by simp [generateTry, hb, ht, hup, hts, hg]; rfl, rfl⟩)
          | unparsable =>
            exact Or.inr (Or.inl ⟨hV, _,
              by simp [generateTry, hb, ht, hup, hts, hg]; rfl, rfl⟩)
          | json data =>
            exact Or.inr (Or.inr ⟨hV, _, data, hg,
              by simp [generateTry, hb, ht, hup, hts, hg, World.start]⟩)
    · exact Or.inl ⟨⟨by simpa using hb, by simpa using ht⟩,
        by simp [generateTry, hb, ht]⟩

/-- Every run of the generate handler ends normally with exactly one response,
which is one of five: the validation answer, the answer of the `catch` block,
the forwarded upstream error, the missing-content answer, or the summary. -/
theorem generate_outcomes (env : Env) (reqBody : JVal) (groq : FetchRequest → FetchResult) :
    ∃ w r, generate env reqBody groq World.start = (.normal, w) ∧ w.responses = [r] ∧
      (((reqBody.isNullish = false ∧ (getProp reqBody "transcript").truthy = false) ∧
          r = ⟨400, .obj [("ok", .bool false), ("error", .str "Transcript required")]⟩) ∨
       (¬ (reqBody.isNullish = false ∧ (getProp reqBody "transcript").truthy = false) ∧
          (r = ⟨500, .obj [("ok", .bool false), ("error", .str "Unexpected server error")]⟩ ∨
           (∃ req data, w.fetches = [req] ∧ groq req = .json data ∧
              (getProp data "error").truthy = true ∧
              r = ⟨500, .obj ([("ok", .bool false),
                    ("error", getProp (getProp data "error") "message")].filter
                      fun f => !f.2.isUndefined)⟩) ∨
           r = ⟨500, .obj [("ok", .bool false),
                  ("error", .str "Groq returned no summary content")]⟩ ∨
           (∃ req data s, w.fetches = [req] ∧ groq req = .json data ∧
              r = ⟨200, .obj [("ok", .bool true), ("summary", .str s)]⟩ ∧
              s ≠ "" ∧ (getProp data "error").truthy = false ∧
              ((∃ x, contentOf data = .str x ∧ jsTrim x ≠ "" ∧ s = jsTrim x) ∨
               (((contentOf data).isNullish = true ∨
                    ∃ x, contentOf data = .str x ∧ jsTrim x = "") ∧
                  ∃ t, textOf data = .str t ∧ s = jsTrim t)))))) := by
  rcases generateTry_cases env reqBody groq with ⟨hV, h⟩ | ⟨hV, w, h, hw⟩ | ⟨hV, req, data, hg, h⟩
  · have hgen : generate env reqBody groq World.start =
        (.normal, (badRequest "Transcript required" World.start).2) := by
      unfold generate; rw [h]; rfl
    exact ⟨_, _, hgen, rfl, Or.inl ⟨hV, rfl⟩⟩
  · have hgen : generate env reqBody groq World.start =
        (.normal, (resJson 500
          [("ok", .bool false), ("error", .str "Unexpected server error")] w).2) := by
      unfold generate; rw [h]; rfl
    exact ⟨_, _, hgen, by simp [resJson, hw, JVal.isUndefined], Or.inr ⟨hV, Or.inl rfl⟩⟩
  · rcases relayReply_cases data { fetches := [req], mails := [], responses := [] } with
      hr | ⟨he, hr⟩ | hr | ⟨s, hr, hs, he, hprov⟩
    · have hgen : generate env reqBody groq World.start =
          (.normal, (resJson 500
            [("ok", .bool false), ("error", .str "Unexpected server error")]
            { fetches := [req], mails := [], responses := [] }).2) := by
        unfold generate; rw [h, hr]; rfl
      exact ⟨_, _, hgen, rfl, Or.inr ⟨hV, Or.inl rfl⟩⟩
    · have hgen : generate env reqBody groq World.start =
          (.normal, (resJson 500
            [("ok", .bool false), ("error", getProp (getProp data "error") "message")]
            { fetches := [req], mails := [], responses := [] }).2) := by
        unfold generate; rw [h, hr]; rfl
      exact ⟨_, _, hgen, rfl, Or.inr ⟨hV, Or.inr (Or.inl ⟨req, data, rfl, hg, he, rfl⟩)⟩⟩
    · have hgen : generate env reqBody groq World.start =
          (.normal, (resJson 500
            [("ok", .bool false), ("error", .str "Groq returned no summary content")]
            { fetches := [req], mails := [], responses := [] }).2) := by
        unfold generate; rw [h, hr]; rfl
      exact ⟨_, _, hgen, rfl, Or.inr ⟨hV, Or.inr (Or.inr (Or.inl rfl))⟩⟩
    · have hgen : generate env reqBody groq World.start =
          (.normal, (resJson 200 [("ok", .bool true), ("summary", .str s)]
            { fetches := [req], mails := [], responses := [] }).2) := by
        unfold generate; rw [h, hr]; rfl
      exact ⟨_, _, hgen, rfl,
        Or.inr ⟨hV, Or.inr (Or.inr (Or.inr ⟨req, data, s, rfl, hg, rfl, hs, he, hprov⟩))⟩⟩

/-- Every run of the share handler ends normally with exactly one response:
one of the two validation answers, the answer of the `catch` block, or the
success answer. -/
theorem share_outcomes (env : Env) (reqBody : JVal) (sendMail : MailSend → SendResult) :
    ∃ w r, share env reqBody sendMail World.start = (.normal, w) ∧ w.responses = [r] ∧
      (((reqBody.isNullish = false ∧
            ((getProp reqBody "summary").truthy = false ∨
              (getProp (getProp reqBody "to") "length").truthy = false)) ∧
          ∃ msg, r = ⟨400, .obj [("ok", .bool false), ("error", .str msg)]⟩) ∨
       (¬ (reqBody.isNullish = false ∧
            ((getProp reqBody "summary").truthy = false ∨
              (getProp (getProp reqBody "to") "length").truthy = false)) ∧
          (r = ⟨500, .obj [("ok", .bool false), ("error", .str "Email send failed")]⟩ ∨
           ∃ v, r = ⟨200, .obj ([("ok", .bool true), ("id", v)].filter
                      fun f => !f.2.isUndefined)⟩))) := by
  by_cases hb : reqBody.isNullish = true
  · exact ⟨_, _, by simp [share, shareTry, hb, resJson, JVal.isUndefined]; rfl, rfl,
      Or.inr ⟨by simp [hb], Or.inl rfl⟩⟩
  by_cases hs : (getProp reqBody "summary").truthy = true
  swap
  · exact ⟨_, _, by simp [share, shareTry, hb, hs, badRequest, resJson, JVal.isUndefined]; rfl,
      rfl, Or.inl ⟨⟨by simpa using hb, Or.inl (by simpa using hs)⟩, _, rfl⟩⟩
  by_cases hl : (getProp (getProp reqBody "to") "length").truthy = true
  swap
  · exact ⟨_, _,
      by simp [share, shareTry, hb, hs, hl, badRequest, resJson, JVal.isUndefined]; rfl,
      rfl, Or.inl ⟨⟨by simpa using hb, Or.inr (by simpa using hl)⟩, _, rfl⟩⟩
  have hV : ¬ (reqBody.isNullish = false ∧
      ((getProp reqBody "summary").truthy = false ∨
        (getProp (getProp reqBody "to") "length").truthy = false)) := by
    simp [hs, hl]
  cases hrec : recipientsOf (getProp reqBody "to") with
  | none =>
    exact ⟨_, _, by simp [share, shareTry, hb, hs, hl, hrec, resJson, JVal.isUndefined]; rfl,
      rfl, Or.inr ⟨hV, Or.inl rfl⟩⟩
  | some recipients =>
    cases hts : toStr (getProp reqBody "summary") with
    | none =>
      exact ⟨_, _,
        by simp [share, shareTry, hb, hs, hl, hrec, hts, resJson, JVal.isUndefined]; rfl,
        rfl, Or.inr ⟨hV, Or.inl rfl⟩⟩
    | some t =>
      cases hsend : sendMail (mailSend env recipients t) with
      | rejected =>
        exact ⟨_, _,
          by simp [share, shareTry, hb, hs, hl, hrec, hts, hsend, resJson, JVal.isUndefined]; rfl,
          by simp [World.start], Or.inr ⟨hV, Or.inl rfl⟩⟩
      | resolved info =>
        by_cases hn : info.isNullish = true
        · exact ⟨_, _,
            by simp [share, shareTry, hb, hs, hl, hrec, hts, hsend, hn, resJson,
              JVal.isUndefined]; rfl,
            by simp [World.start], Or.inr ⟨hV, Or.inl rfl⟩⟩
        · exact ⟨_, _,
            by simp only [share, shareTry, hb, hs, hl, hrec, hts, hsend, hn, resJson]; rfl,
            by simp [World.start], Or.inr ⟨hV, Or.inr ⟨getProp info "messageId", rfl⟩⟩⟩

/-- C1, as stated, fails: when the request has no body at all, `req.body` is
`undefined`, its `transcript` is absent, and the destructuring throws; the
handler answers status 500 with body `{ok:false, error:"Unexpected server
error"}` instead of status 400. -/
theorem C1_counterexample :
    getProp .undefined "transcript" = .undefined ∧
    generate ⟨some "key", none, none⟩ .undefined (fun _ => .rejected) World.start =
      (.normal,
        { fetches := [], mails := [],
          responses :=
            [⟨500, .obj [("ok", .bool false), ("error", .str "Unexpected server error")]⟩] }) := by
  constructor
  · rfl
  · simp [generate, generateTry, JVal.isNullish, resJson, World.start, JVal.isUndefined]

/-- C1, amended: for every request body whose `transcript` is absent or the
empty string, and whatever the completion service would do, the handler makes
no outbound call; when the body is present (not `undefined` or `null`) it
answers status 400 with body `{ok:false, error:"Transcript required"}`, and
when there is no body it answers status 500 with body `{ok:false,
error:"Unexpected server error"}`. -/
theorem C1_missing_transcript_rejected (env : Env) (reqBody : JVal)
    (groq : FetchRequest → FetchResult)
    (ht : getProp reqBody "transcript" = .undefined ∨ getProp reqBody "transcript" = .str "") :
    (generate env reqBody groq World.start).2.fetches = [] ∧
    (reqBody.isNullish = false →
      generate env reqBody groq World.start =
        (.normal,
          { fetches := [], mails := [],
            responses :=
              [⟨400, .obj [("ok", .bool false), ("error", .str "Transcript required")]⟩] })) ∧
    (reqBody.isNullish = true →
      generate env reqBody groq World.start =
        (.normal,
          { fetches := [], mails := [],
            responses :=
              [⟨500, .obj [("ok", .bool false),
                           ("error", .str "Unexpected server error")]⟩] })) := by
  have hpresent : reqBody.isNullish = false →
      generate env reqBody groq World.start =
        (.normal,
          { fetches := [], mails := [],
            responses :=
              [⟨400, .obj [("ok", .bool false), ("error", .str "Transcript required")]⟩] }) := by
    intro hbody
    rcases ht with ht | ht <;>
      simp [generate, generateTry, hbody, ht, JVal.truthy, badRequest, resJson, World.start,
        JVal.isUndefined]
  have habsent : reqBody.isNullish = true →
      generate env reqBody groq World.start =
        (.normal,
          { fetches := [], mails := [],
            responses :=
              [⟨500, .obj [("ok", .bool false),
                           ("error", .str "Unexpected server error")]⟩] }) := by
    intro hbody
    simp [generate, generateTry, hbody, resJson, World.start, JVal.isUndefined]
  refine ⟨?_, hpresent, habsent⟩
  cases hb : reqBody.isNullish
  · rw [hpresent hb]
  · rw [habsent hb]

/-- An instance of amended C1: the body `{prompt:"short"}`, with a completion
service that would reject. -/
theorem C1_missing_transcript_rejected_witness :
    generate ⟨none, none, none⟩ (.obj [("prompt", .str "short")]) (fun _ => .rejected) World.start =
      (.normal,
        { fetches := [], mails := [],
          responses := [⟨400, .obj [("ok", .bool false), ("error", .str "Transcript required")]⟩] }) :=
  (C1_missing_transcript_rejected ⟨none, none, none⟩ (.obj [("prompt", .str "short")])
    (fun _ => .rejected) (Or.inl (by simp [getProp, lookup]))).2.1 rfl

/-- C3: for a request with a non-empty textual transcript (and an absent or
textual prompt), when the reply of the completion service carries an error
object whose `message` is the string `Y`, the handler answers status 500 with
body `{ok:false, error:Y}`, whatever else the reply contains. -/
theorem C3_upstream_error_surfaced (env : Env) (reqBody : JVal)
    (groq : FetchRequest → FetchResult) (T : String) (data : JVal)
    (errFields : List (String × JVal)) (Y : String)
    (ht : getProp reqBody "transcript" = .str T) (hT : T ≠ "")
    (hp : getProp reqBody "prompt" = .undefined ∨ ∃ P, getProp reqBody "prompt" = .str P)
    (hg : ∀ r, groq r = .json data)
    (he : getProp data "error" = .obj errFields)
    (hm : lookup "message" errFields = .str Y) :
    (generate env reqBody groq World.start).1 = .normal ∧
    (generate env reqBody groq World.start).2.responses =
      [⟨500, .obj [("ok", .bool false), ("error", .str Y)]⟩] := by
  obtain ⟨up, -, hrun⟩ := generate_of_reply env reqBody groq T data ht hT hp hg
  have hd : data.isNullish = false := by
    cases data <;> simp_all [JVal.isNullish, getProp]
  have h1 : getProp (.obj errFields) "message" = .str Y := by simp [getProp, hm]
  simp [generate, hrun, relayReply, hd, he, h1, JVal.truthy, resJson, JVal.isUndefined]

/-- An instance of C3: a reply with an error object next to a well-formed choices list. -/
theorem C3_upstream_error_surfaced_witness :
    (generate ⟨some "key", none, none⟩ (.obj [("transcript", .str "We met.")])
        (fun _ => .json (.obj
          [("error", .obj [("message", .str "rate limit")]),
           ("choices", .arr [.obj [("message", .obj [("content", .str "Summary")])]])]))
        World.start).1 = .normal ∧
    (generate ⟨some "key", none, none⟩ (.obj [("transcript", .str "We met.")])
        (fun _ => .json (.obj
          [("error", .obj [("message", .str "rate limit")]),
           ("choices", .arr [.obj [("message", .obj [("content", .str "Summary")])]])]))
        World.start).2.responses =
      [⟨500, .obj [("ok", .bool false), ("error", .str "rate limit")]⟩] :=
  C3_upstream_error_surfaced ⟨some "key", none, none⟩ (.obj [("transcript", .str "We met.")])
    (fun _ => .json (.obj
      [("error", .obj [("message", .str "rate limit")]),
       ("choices", .arr [.obj [("message", .obj [("content", .str "Summary")])]])]))
    "We met." _ [("message", .str "rate limit")] "rate limit"
    (by simp [getProp, lookup]) (by decide) (Or.inl (by simp [getProp, lookup]))
    (fun _ => rfl) (by simp [getProp, lookup]) (by simp [lookup])

/-- The missing-content answer: for a request with a non-empty textual
transcript (and an absent or textual prompt), when the reply is a JSON value
other than `null` whose `error` is absent (or falsy) and in which each of
`choices[0].message.content` and `choices[0].text` is absent or blank after
trimming, the handler answers status 500 with body `{ok:false, error:"Groq
returned no summary content"}`. -/
theorem generate_no_summary_content (env : Env) (reqBody : JVal)
    (groq : FetchRequest → FetchResult) (T : String) (data : JVal)
    (ht : getProp reqBody "transcript" = .str T) (hT : T ≠ "")
    (hp : getProp reqBody "prompt" = .undefined ∨ ∃ P, getProp reqBody "prompt" = .str P)
    (hg : ∀ r, groq r = .json data)
    (hd : data.isNullish = false)
    (he : (getProp data "error").truthy = false)
    (hc : (getProp (getProp (getIndex0 (getProp data "choices")) "message") "content").isNullish
          = true ∨
      ∃ x, getProp (getProp (getIndex0 (getProp data "choices")) "message") "content" = .str x ∧
        jsTrim x = "")
    (hx : (getProp (getIndex0 (getProp data "choices")) "text").isNullish = true ∨
      ∃ x, getProp (getIndex0 (getProp data "choices")) "text" = .str x ∧ jsTrim x = "") :
    (generate env reqBody groq World.start).1 = .normal ∧
    (generate env reqBody groq World.start).2.responses =
      [⟨500, .obj [("ok", .bool false), ("error", .str "Groq returned no summary content")]⟩] := by
  obtain ⟨up, -, hrun⟩ := generate_of_reply env reqBody groq T data ht hT hp hg
  obtain ⟨a, ha, hat⟩ := @optTrim_blank (contentOf data) hc
  obtain ⟨b, hb, hbt⟩ := @optTrim_blank (textOf data) hx
  have hs : summaryOf data = some b := by simp [summaryOf, ha, hat, hb]
  simp [generate, hrun, relayReply, hd, he, hs, hbt, resJson, JVal.isUndefined]

/-- The missing-content answer on the reply `{choices: []}`. -/
theorem generate_no_summary_content_empty_choices :
    (generate ⟨some "key", none, none⟩ (.obj [("transcript", .str "We met.")])
        (fun _ => .json (.obj [("choices", .arr [])])) World.start).1 = .normal ∧
    (generate ⟨some "key", none, none⟩ (.obj [("transcript", .str "We met.")])
        (fun _ => .json (.obj [("choices", .arr [])])) World.start).2.responses =
      [⟨500, .obj [("ok", .bool false), ("error", .str "Groq returned no summary content")]⟩] :=
  generate_no_summary_content ⟨some "key", none, none⟩ (.obj [("transcript", .str "We met.")])
    (fun _ => .json (.obj [("choices", .arr [])])) "We met." (.obj [("choices", .arr [])])
    (by simp [getProp, lookup]) (by decide) (Or.inl (by simp [getProp, lookup]))
    (fun _ => rfl) rfl (by simp [getProp, lookup, JVal.truthy])
    (Or.inl (by simp [getProp, lookup, getIndex0, JVal.isNullish]))
    (Or.inl (by simp [getProp, lookup, getIndex0, JVal.isNullish]))

/-- C4, the code at the failing input: the reply `null` has no `error`, no
`choices[0].message.content` and no `choices[0].text`, yet the handler answers
status 500 with body `{ok:false, error:"Unexpected server error"}` and not
"Groq returned no summary content": `data.error` is read without `?.` and
throws before the guarded chain `data?.choices?.[0]` is reached. -/
theorem C4_null_reply_unexpected_error :
    getProp (getProp (getIndex0 (getProp .null "choices")) "message") "content" = .undefined ∧
    getProp (getIndex0 (getProp .null "choices")) "text" = .undefined ∧
    summaryOf .null = some .undefined ∧
    generate ⟨some "key", none, none⟩ (.obj [("transcript", .str "We met.")])
        (fun _ => .json .null) World.start =
      (.normal,
        { fetches := [fetchRequest ⟨some "key", none, none⟩ (chatBody defaultPrompt "We met.")]
          mails := []
          responses :=
            [⟨500, .obj [("ok", .bool false),
                         ("error", .str "Unexpected server error")]⟩] }) := by
  refine ⟨rfl, rfl, ?_, ?_⟩
  · simp [summaryOf, optTrim, contentOf, textOf, firstChoice, getProp, getIndex0,
      JVal.isNullish, JVal.truthy]
  · simp [generate, generateTry, relayReply, getProp, lookup, userPromptOf, toStr,
      JVal.isNullish, JVal.truthy, JVal.isUndefined, resJson, World.start]

/-- C2, as stated, fails: a reply whose `choices[0].message.content` is the
blank string `" "` gets status 500 "Groq returned no summary content", and a
reply that carries both a content `"Summary"` and an error object gets status
500 with the error message; neither gets `{ok:true, summary: trim(X)}`. -/
theorem C2_counterexample :
    (contentOf (.obj [("choices", .arr [.obj [("message", .obj [("content", .str " ")])]])])
        = .str " " ∧
      (generate ⟨some "key", none, none⟩ (.obj [("transcript", .str "We met.")])
          (fun _ => .json
            (.obj [("choices", .arr [.obj [("message", .obj [("content", .str " ")])]])]))
          World.start).2.responses =
        [⟨500, .obj [("ok", .bool false),
                     ("error", .str "Groq returned no summary content")]⟩]) ∧
    (contentOf (.obj
        [("error", .obj [("message", .str "rate limit")]),
         ("choices", .arr [.obj [("message", .obj [("content", .str "Summary")])]])])
        = .str "Summary" ∧
      (generate ⟨some "key", none, none⟩ (.obj [("transcript", .str "We met.")])
          (fun _ => .json (.obj
            [("error", .obj [("message", .str "rate limit")]),
             ("choices", .arr [.obj [("message", .obj [("content", .str "Summary")])]])]))
          World.start).2.responses =
        [⟨500, .obj [("ok", .bool false), ("error", .str "rate limit")]⟩]) := by
  have hblank : jsTrim " " = "" := by decide
  refine ⟨⟨?_, ?_⟩, ?_, ?_⟩
  · simp [contentOf, firstChoice, getProp, lookup, getIndex0]
  · simp [generate, generateTry, relayReply, summaryOf, optTrim, callTrim, contentOf, textOf,
      firstChoice, getProp, lookup, getIndex0, userPromptOf, toStr, JVal.isNullish, JVal.truthy,
      JVal.isUndefined, resJson, World.start, hblank]
  · simp [contentOf, firstChoice, getProp, lookup, getIndex0]
  · simp [generate, generateTry, relayReply, getProp, lookup, userPromptOf, toStr,
      JVal.isNullish, JVal.truthy, JVal.isUndefined, resJson, World.start]

/-- C2, amended: for a request with a non-empty textual transcript (and an
absent or textual prompt), when the reply has no truthy `error` and its
`choices[0].message.content` is a string `X` that is not blank, the handler
answers status 200 with body `{ok:true, summary: trim(X)}`. -/
theorem C2_content_relayed (env : Env) (reqBody : JVal)
    (groq : FetchRequest → FetchResult) (T : String) (data : JVal) (X : String)
    (ht : getProp reqBody "transcript" = .str T) (hT : T ≠ "")
    (hp : getProp reqBody "prompt" = .undefined ∨ ∃ P, getProp reqBody "prompt" = .str P)
    (hg : ∀ r, groq r = .json data)
    (he : (getProp data "error").truthy = false)
    (hc : contentOf data = .str X) (hX : jsTrim X ≠ "") :
    (generate env reqBody groq World.start).1 = .normal ∧
    (generate env reqBody groq World.start).2.responses =
      [⟨200, .obj [("ok", .bool true), ("summary", .str (jsTrim X))]⟩] := by
  obtain ⟨up, -, hrun⟩ := generate_of_reply env reqBody groq T data ht hT hp hg
  have hd : data.isNullish = false := by
    by_contra hn
    have : contentOf data = .undefined := contentOf_of_isNullish (by simpa using hn)
    rw [this] at hc
    cases hc
  obtain ⟨h1, h2⟩ := optTrim_text hX
  have hs : summaryOf data = some (.str (jsTrim X)) := by simp [summaryOf, hc, h1, h2]
  simp [generate, hrun, relayReply, hd, he, hs, h2, resJson, JVal.isUndefined]

/-- An instance of amended C2: the content `" Done. "` is returned trimmed. -/
theorem C2_content_relayed_witness :
    (generate ⟨some "key", none, none⟩ (.obj [("transcript", .str "We met.")])
        (fun _ => .json
          (.obj [("choices", .arr [.obj [("message", .obj [("content", .str " Done. ")])]])]))
        World.start).1 = .normal ∧
    (generate ⟨some "key", none, none⟩ (.obj [("transcript", .str "We met.")])
        (fun _ => .json
          (.obj [("choices", .arr [.obj [("message", .obj [("content", .str " Done. ")])]])]))
        World.start).2.responses =
      [⟨200, .obj [("ok", .bool true), ("summary", .str (jsTrim " Done. "))]⟩] :=
  C2_content_relayed ⟨some "key", none, none⟩ (.obj [("transcript", .str "We met.")])
    _ "We met." (.obj [("choices", .arr [.obj [("message", .obj [("content", .str " Done. ")])]])])
    " Done. " (by simp [getProp, lookup]) (by decide) (Or.inl (by simp [getProp, lookup]))
    (fun _ => rfl) (by simp [getProp, lookup, JVal.truthy])
    (by simp [contentOf, firstChoice, getProp, lookup, getIndex0]) (by decide)

/-- C5: for a request with a non-empty textual transcript `T` and an absent or
textual prompt, whatever the completion service does, the handler makes one
outbound call whose messages are the system message followed by one user
message.  When the prompt is absent or blank (only white space, possibly none)
the user content is `"Instruction: Summarize in bullet points for
executives.\n\nTranscript:\n"` followed by `T`; when the prompt is a string `P`
that is not blank, the default text is replaced by `trim(P)`. -/
theorem C5_outbound_messages (env : Env) (reqBody : JVal)
    (groq : FetchRequest → FetchResult) (T : String)
    (ht : getProp reqBody "transcript" = .str T) (hT : T ≠ "")
    (hp : getProp reqBody "prompt" = .undefined ∨ ∃ P, getProp reqBody "prompt" = .str P) :
    ∃ r c, (generate env reqBody groq World.start).2.fetches = [r] ∧
      r.body.messages = [⟨"system", systemPrompt⟩, ⟨"user", c⟩] ∧
      ((getProp reqBody "prompt" = .undefined ∨
          ∃ P, getProp reqBody "prompt" = .str P ∧ ∀ ch ∈ P.data, isJsSpace ch = true) →
        c = "Instruction: Summarize in bullet points for executives.\n\nTranscript:\n" ++ T) ∧
      (∀ P, getProp reqBody "prompt" = .str P → (∃ ch ∈ P.data, isJsSpace ch = false) →
        c = "Instruction: " ++ jsTrim P ++ "\n\nTranscript:\n" ++ T) := by
  have hdefault : ∀ t : String,
      "Instruction: " ++ defaultPrompt ++ "\n\nTranscript:\n" ++ t =
        "Instruction: Summarize in bullet points for executives.\n\nTranscript:\n" ++ t := by
    intro t
    have : "Instruction: " ++ defaultPrompt ++ "\n\nTranscript:\n" =
        "Instruction: Summarize in bullet points for executives.\n\nTranscript:\n" := by decide
    rw [this]
  rcases hp with hp | ⟨P, hp⟩
  · refine ⟨_, _, generate_fetches_of_text env reqBody groq T defaultPrompt ht hT
      (by rw [hp]; exact userPromptOf_undefined), rfl, fun _ => hdefault T, ?_⟩
    intro P hP
    rw [hp] at hP
    cases hP
  · refine ⟨_, _, generate_fetches_of_text env reqBody groq T _ ht hT
      (by rw [hp]; exact userPromptOf_str P), rfl, ?_, ?_⟩
    · intro h
      have hblank : jsTrim P = "" := by
        rcases h with h | ⟨Q, hQ, hall⟩
        · rw [hp] at h; cases h
        · rw [hp] at hQ
          cases hQ
          exact (jsTrim_eq_empty_iff P).2 hall
      simp only [hblank, if_true]
      exact hdefault T
    · intro Q hQ hex
      rw [hp] at hQ
      cases hQ
      have hne : jsTrim P ≠ "" := by
        intro h0
        obtain ⟨ch, hmem, hch⟩ := hex
        have := (jsTrim_eq_empty_iff P).1 h0 ch hmem
        simp [hch] at this
      simp only [hne, if_false]

/-- An instance of C5: a prompt of two spaces. -/
theorem C5_outbound_messages_witness :
    ∃ r c, (generate ⟨some "key", none, none⟩
          (.obj [("transcript", .str "We met."), ("prompt", .str "  ")])
          (fun _ => .rejected) World.start).2.fetches = [r] ∧
      r.body.messages = [⟨"system", systemPrompt⟩, ⟨"user", c⟩] ∧
      ((getProp (.obj [("transcript", .str "We met."), ("prompt", .str "  ")]) "prompt"
            = .undefined ∨
          ∃ P, getProp (.obj [("transcript", .str "We met."), ("prompt", .str "  ")]) "prompt"
            = .str P ∧ ∀ ch ∈ P.data, isJsSpace ch = true) →
        c = "Instruction: Summarize in bullet points for executives.\n\nTranscript:\n"
              ++ "We met.") ∧
      (∀ P, getProp (.obj [("transcript", .str "We met."), ("prompt", .str "  ")]) "prompt"
            = .str P → (∃ ch ∈ P.data, isJsSpace ch = false) →
        c = "Instruction: " ++ jsTrim P ++ "\n\nTranscript:\n" ++ "We met.") :=
  C5_outbound_messages ⟨some "key", none, none⟩
    (.obj [("transcript", .str "We met."), ("prompt", .str "  ")]) (fun _ => .rejected)
    "We met." (by simp [getProp, lookup]) (by decide)
    (Or.inr ⟨"  ", by simp [getProp, lookup]⟩)

/-- C6, the code at the failing input: the recipient input `","` passes the
check of the share handler, which sends one mail to the two empty addresses
`["", ""]` and answers 200 when the send succeeds, although no address is left
after splitting and trimming: the browser form, which filters the empty
tokens, finds no recipient in the same input. -/
theorem C6_blank_recipients_are_sent :
    sendEmailRecipients "," = [] ∧
    share ⟨none, some "me@x.com", some "pw"⟩
        (.obj [("summary", .str "Notes"), ("to", .str ",")])
        (fun _ => .resolved (.obj [("messageId", .str "abc123")])) World.start =
      (.normal,
        { fetches := []
          mails := [mailSend ⟨none, some "me@x.com", some "pw"⟩ (.arr [.str "", .str ""]) "Notes"]
          responses := [⟨200, .obj [("ok", .bool true), ("id", .str "abc123")]⟩] }) := by
  have h1 : jsSplitComma "," = ["", ""] := by decide
  have h2 : jsTrim "" = "" := by decide
  constructor
  · simp [sendEmailRecipients, h1, h2]
  · have hto : getProp (.obj [("summary", .str "Notes"), ("to", .str ",")]) "to" = .str "," := by
      simp [getProp, lookup]
    have hrun := shareTry_of_text ⟨none, some "me@x.com", some "pw"⟩
      (.obj [("summary", .str "Notes"), ("to", .str ",")])
      (fun _ => .resolved (.obj [("messageId", .str "abc123")])) "Notes"
      (.arr [.str "", .str ""]) (by simp [getProp, lookup]) (by decide)
      (by rw [hto]; exact truthy_length_str (by decide))
      (by rw [hto]; simp [recipientsOf, h1, h2])
    simp [share, hrun, JVal.isNullish, getProp, lookup, resJson, JVal.isUndefined]

/-- C7: in the share handler, for a request with a non-empty textual summary,
a non-empty recipient list is handed to the mail transport as it is, and a
non-empty recipient string `s` is handed over as its tokens, each trimmed, in
order; the tokens are the pieces of `s` between its commas (joined with commas
they give `s` back, none contains a comma), so there are as many as commas
plus one. -/
theorem C7_recipient_normalisation (env : Env) (reqBody : JVal)
    (sendMail : MailSend → SendResult) (S : String)
    (hs : getProp reqBody "summary" = .str S) (hS : S ≠ "") :
    (∀ xs, getProp reqBody "to" = .arr xs → xs ≠ [] →
      ∃ m, (share env reqBody sendMail World.start).2.mails = [m] ∧
        m.options.recipients = .arr xs) ∧
    (∀ s, getProp reqBody "to" = .str s → s ≠ "" →
      ∃ m, (share env reqBody sendMail World.start).2.mails = [m] ∧
        m.options.recipients = .arr ((jsSplitComma s).map fun t => .str (jsTrim t)) ∧
        ((jsSplitComma s).map fun t => JVal.str (jsTrim t)).length = s.data.count ',' + 1 ∧
        List.intercalate [','] ((jsSplitComma s).map String.data) = s.data ∧
        ∀ t ∈ jsSplitComma s, ',' ∉ t.data) := by
  constructor
  · intro xs hto hxs
    refine ⟨_, share_mails_of_text env reqBody sendMail S (.arr xs) hs hS ?_ ?_, rfl⟩
    · rw [hto]; exact truthy_length_arr hxs
    · rw [hto]; rfl
  · intro s hto hne
    refine ⟨_, share_mails_of_text env reqBody sendMail S _ hs hS ?_ ?_, rfl, ?_, ?_, ?_⟩
    · rw [hto]; exact truthy_length_str hne
    · rw [hto]; rfl
    · simp [jsSplitComma, splitChars_length]
    · have : (jsSplitComma s).map String.data = splitChars ',' s.data := by
        simp [jsSplitComma, Function.comp_def]
      rw [this, splitChars_intercalate]
    · intro t ht
      simp only [jsSplitComma, List.mem_map] at ht
      obtain ⟨p, hp, rfl⟩ := ht
      exact splitChars_no_sep ',' s.data p hp

/-- An instance of C7: the recipient string `"a@x.com, b@x.com"` reaches the transport as `["a@x.com","b@x.com"]`. -/
theorem C7_recipient_normalisation_witness :
    ∃ m, (share ⟨none, none, none⟩
          (.obj [("summary", .str "Notes"), ("to", .str "a@x.com, b@x.com")])
          (fun _ => .rejected) World.start).2.mails = [m] ∧
      m.options.recipients = .arr [.str "a@x.com", .str "b@x.com"] := by
  obtain ⟨m, hm, hr, -⟩ :=
    (C7_recipient_normalisation ⟨none, none, none⟩
      (.obj [("summary", .str "Notes"), ("to", .str "a@x.com, b@x.com")])
      (fun _ => .rejected) "Notes" (by simp [getProp, lookup]) (by decide)).2
      "a@x.com, b@x.com" (by simp [getProp, lookup]) (by decide)
  have h : (jsSplitComma "a@x.com, b@x.com").map jsTrim = ["a@x.com", "b@x.com"] := by decide
  have h' : (jsSplitComma "a@x.com, b@x.com").map (fun t => JVal.str (jsTrim t)) =
      ((jsSplitComma "a@x.com, b@x.com").map jsTrim).map JVal.str := by
    simp [List.map_map, Function.comp_def]
  refine ⟨m, hm, ?_⟩
  rw [hr, h', h]
  rfl

/-- C8: a request to the share handler with a non-empty textual summary and a
non-empty recipient string or list makes exactly one send; when the send
resolves with message identifier `id` the handler answers 200 with body
`{ok:true, id}`, and when it throws the handler answers 500 with body
`{ok:false, error:"Email send failed"}`. -/
theorem C8_share_outcome (env : Env) (reqBody : JVal)
    (sendMail : MailSend → SendResult) (S : String)
    (hs : getProp reqBody "summary" = .str S) (hS : S ≠ "")
    (hto : (∃ xs, getProp reqBody "to" = .arr xs ∧ xs ≠ []) ∨
      (∃ s, getProp reqBody "to" = .str s ∧ s ≠ "")) :
    ∃ m, (share env reqBody sendMail World.start).2.mails = [m] ∧
      (share env reqBody sendMail World.start).1 = .normal ∧
      (∀ info id, sendMail m = .resolved info → getProp info "messageId" = .str id →
        (share env reqBody sendMail World.start).2.responses =
          [⟨200, .obj [("ok", .bool true), ("id", .str id)]⟩]) ∧
      (sendMail m = .rejected →
        (share env reqBody sendMail World.start).2.responses =
          [⟨500, .obj [("ok", .bool false), ("error", .str "Email send failed")]⟩]) := by
  obtain ⟨recipients, hlen, hrec⟩ :
      ∃ recipients, (getProp (getProp reqBody "to") "length").truthy = true ∧
        recipientsOf (getProp reqBody "to") = some recipients := by
    rcases hto with ⟨xs, hx, hne⟩ | ⟨s, hx, hne⟩
    · exact ⟨_, by rw [hx]; exact truthy_length_arr hne, by rw [hx]; rfl⟩
    · exact ⟨_, by rw [hx]; exact truthy_length_str hne, by rw [hx]; rfl⟩
  have hrun := shareTry_of_text env reqBody sendMail S recipients hs hS hlen hrec
  refine ⟨mailSend env recipients S,
    share_mails_of_text env reqBody sendMail S recipients hs hS hlen hrec, ?_, ?_, ?_⟩
  · unfold share
    split <;> rfl
  · intro info id hres hid
    have hn := not_isNullish_of_getProp_str hid
    simp [share, hrun, hres, hn, hid, resJson, JVal.isUndefined]
  · intro hrej
    simp [share, hrun, hrej, resJson, JVal.isUndefined]

/-- An instance of C8: a send that resolves with the identifier `"abc123"`. -/
theorem C8_share_outcome_witness :
    ∃ m, (share ⟨none, some "me@x.com", some "pw"⟩
          (.obj [("summary", .str "Notes"), ("to", .arr [.str "a@x.com"])])
          (fun _ => .resolved (.obj [("messageId", .str "abc123")])) World.start).2.mails = [m] ∧
      (share ⟨none, some "me@x.com", some "pw"⟩
          (.obj [("summary", .str "Notes"), ("to", .arr [.str "a@x.com"])])
          (fun _ => .resolved (.obj [("messageId", .str "abc123")])) World.start).2.responses =
        [⟨200, .obj [("ok", .bool true), ("id", .str "abc123")]⟩] := by
  obtain ⟨m, hm, -, hok, -⟩ :=
    C8_share_outcome ⟨none, some "me@x.com", some "pw"⟩
      (.obj [("summary", .str "Notes"), ("to", .arr [.str "a@x.com"])])
      (fun _ => .resolved (.obj [("messageId", .str "abc123")])) "Notes"
      (by simp [getProp, lookup]) (by decide)
      (Or.inl ⟨[.str "a@x.com"], by simp [getProp, lookup], by simp⟩)
  exact ⟨m, hm, hok _ "abc123" rfl (by simp [getProp, lookup])⟩

/-- C9, as stated, fails: when the reply of the completion service is
`{"error": "quota exceeded"}`, whose `error` is a string and has no `message`,
the generate handler answers status 500 with body `{ok:false}`: the `error`
property is `undefined` and is left out of the JSON body. -/
theorem C9_counterexample :
    (generate ⟨some "key", none, none⟩ (.obj [("transcript", .str "We met.")])
        (fun _ => .json (.obj [("error", .str "quota exceeded")])) World.start).2.responses =
      [⟨500, .obj [("ok", .bool false)]⟩] := by
  simp [generate, generateTry, relayReply, getProp, lookup, userPromptOf, toStr,
    JVal.isNullish, JVal.truthy, JVal.isUndefined, resJson, World.start]

/-- C9, amended: for every request body and every behaviour of the completion
service and of the mail transport, each handler ends normally (no exception
escapes) with exactly one response.  A success response has status 200 and
`ok:true`.  Every failure response of the share handler has the body
`{ok:false, error:<string>}`, and so has every failure response of the generate
handler provided that a reply with a truthy `error` carries a string
`error.message`, which is forwarded unchecked.  The status of a failure is 400
exactly when a body is present and a required input (`transcript`; `summary` or
a non-empty `to`) is missing, and 500 otherwise. -/
theorem C9_uniform_outcomes (env : Env) (reqBody : JVal)
    (groq : FetchRequest → FetchResult) (sendMail : MailSend → SendResult)
    (hup : ∀ req data, groq req = .json data → (getProp data "error").truthy = true →
      ∃ Y, getProp (getProp data "error") "message" = .str Y) :
    ((generate env reqBody groq World.start).1 = .normal ∧
      ∃ r, (generate env reqBody groq World.start).2.responses = [r] ∧
        ((r.status = 200 ∧ getProp r.body "ok" = .bool true) ∨
         ((∃ e, r.body = .obj [("ok", .bool false), ("error", .str e)]) ∧
          ((r.status = 400 ∧
              (reqBody.isNullish = false ∧ (getProp reqBody "transcript").truthy = false)) ∨
           (r.status = 500 ∧
              ¬ (reqBody.isNullish = false ∧
                  (getProp reqBody "transcript").truthy = false)))))) ∧
    ((share env reqBody sendMail World.start).1 = .normal ∧
      ∃ r, (share env reqBody sendMail World.start).2.responses = [r] ∧
        ((r.status = 200 ∧ getProp r.body "ok" = .bool true) ∨
         ((∃ e, r.body = .obj [("ok", .bool false), ("error", .str e)]) ∧
          ((r.status = 400 ∧
              (reqBody.isNullish = false ∧
                ((getProp reqBody "summary").truthy = false ∨
                  (getProp (getProp reqBody "to") "length").truthy = false))) ∨
           (r.status = 500 ∧
              ¬ (reqBody.isNullish = false ∧
                  ((getProp reqBody "summary").truthy = false ∨
                    (getProp (getProp reqBody "to") "length").truthy = false))))))) := by
  constructor
  · obtain ⟨w, r, hgen, hw, hcases⟩ := generate_outcomes env reqBody groq
    rw [hgen]
    refine ⟨rfl, r, hw, ?_⟩
    rcases hcases with ⟨hV, rfl⟩ | ⟨hV, rfl | ⟨req, data, -, hg, he, rfl⟩ | rfl |
      ⟨req, data, s, -, -, rfl, -⟩⟩
    · exact Or.inr ⟨⟨_, rfl⟩, Or.inl ⟨rfl, hV⟩⟩
    · exact Or.inr ⟨⟨_, rfl⟩, Or.inr ⟨rfl, hV⟩⟩
    · obtain ⟨Y, hY⟩ := hup req data hg he
      exact Or.inr ⟨⟨Y, by simp [hY, JVal.isUndefined]⟩, Or.inr ⟨rfl, hV⟩⟩
    · exact Or.inr ⟨⟨_, rfl⟩, Or.inr ⟨rfl, hV⟩⟩
    · exact Or.inl ⟨rfl, by simp [getProp, lookup]⟩
  · obtain ⟨w, r, hsh, hw, hcases⟩ := share_outcomes env reqBody sendMail
    rw [hsh]
    refine ⟨rfl, r, hw, ?_⟩
    rcases hcases with ⟨hV, msg, rfl⟩ | ⟨hV, rfl | ⟨v, rfl⟩⟩
    · exact Or.inr ⟨⟨_, rfl⟩, Or.inl ⟨rfl, hV⟩⟩
    · exact Or.inr ⟨⟨_, rfl⟩, Or.inr ⟨rfl, hV⟩⟩
    · exact Or.inl ⟨rfl, by simp [getProp, lookup, JVal.isUndefined]⟩

/-- An instance of amended C9: a reply with an error object that has a string message, and a mail transport that throws. -/
theorem C9_uniform_outcomes_witness :
    (generate ⟨some "key", none, none⟩ (.obj [("transcript", .str "We met.")])
        (fun _ => .json (.obj [("error", .obj [("message", .str "rate limit")])]))
        World.start).1 = .normal ∧
    (share ⟨some "key", none, none⟩ (.obj [("transcript", .str "We met.")])
        (fun _ => .rejected) World.start).1 = .normal :=
  have h := C9_uniform_outcomes ⟨some "key", none, none⟩ (.obj [("transcript", .str "We met.")])
    (fun _ => .json (.obj [("error", .obj [("message", .str "rate limit")])]))
    (fun _ => .rejected)
    (fun _ data hg _ => by
      cases hg
      exact ⟨"rate limit", by simp [getProp, lookup]⟩)
  ⟨h.1.1, h.2.1⟩

/-- C10: whenever the generate handler answers with `ok:true`, the response is
`{ok:true, summary:s}` with status 200, where `s` is a non-empty string whose
first and last characters are not white space; the reply `data` given to the
one outbound call has no truthy `error`, and `s` is `trim` of
`data.choices[0].message.content` when that is a string with a non-empty trim,
and otherwise (that content being absent or blank) `trim` of the string
`data.choices[0].text`.  Both paths are spelled out on the reply itself. -/
theorem C10_success_summary (env : Env) (reqBody : JVal)
    (groq : FetchRequest → FetchResult) (r : Response)
    (hr : (generate env reqBody groq World.start).2.responses = [r])
    (hok : getProp r.body "ok" = .bool true) :
    ∃ s, r = ⟨200, .obj [("ok", .bool true), ("summary", .str s)]⟩ ∧ s ≠ "" ∧
      (∀ c, s.data.head? = some c → isJsSpace c = false) ∧
      (∀ c, s.data.getLast? = some c → isJsSpace c = false) ∧
      ∃ req data, (generate env reqBody groq World.start).2.fetches = [req] ∧
        groq req = .json data ∧ (getProp data "error").truthy = false ∧
        ((∃ x, getProp (getProp (getIndex0 (getProp data "choices")) "message") "content"
              = .str x ∧ jsTrim x ≠ "" ∧ s = jsTrim x) ∨
         (((getProp (getProp (getIndex0 (getProp data "choices")) "message") "content").isNullish
              = true ∨
            ∃ x, getProp (getProp (getIndex0 (getProp data "choices")) "message") "content"
              = .str x ∧ jsTrim x = "") ∧
          ∃ t, getProp (getIndex0 (getProp data "choices")) "text" = .str t ∧
            s = jsTrim t)) := by
  obtain ⟨w, r', hgen, hw, hcases⟩ := generate_outcomes env reqBody groq
  rw [hgen] at hr ⊢
  simp only [hw, List.cons.injEq, and_true] at hr
  subst hr
  rcases hcases with ⟨-, rfl⟩ | ⟨-, rfl | ⟨req, data, -, -, -, rfl⟩ | rfl |
    ⟨req, data, s, hf, hg, rfl, hs, he, hprov⟩⟩
  · simp [getProp, lookup] at hok
  · simp [getProp, lookup] at hok
  · simp [getProp, lookup, JVal.isUndefined] at hok
  · simp [getProp, lookup] at hok
  · have htrim : ∃ y, s = jsTrim y := by
      rcases hprov with ⟨x, -, -, h⟩ | ⟨-, t, -, h⟩
      · exact ⟨x, h⟩
      · exact ⟨t, h⟩
    obtain ⟨y, rfl⟩ := htrim
    exact ⟨_, rfl, hs, fun c hc => trimChars_head_not_space y.data c hc,
      fun c hc => trimChars_getLast_not_space y.data c hc, req, data, hf, hg, he, hprov⟩

/-- An instance of C10: on a reply with content `" A "` and legacy text `"B"`
the summary is `"A"`, taken from the content. -/
theorem C10_success_summary_witness :
    ∃ s, (⟨200, .obj [("ok", .bool true), ("summary", .str "A")]⟩ : Response) =
        ⟨200, .obj [("ok", .bool true), ("summary", .str s)]⟩ ∧ s ≠ "" ∧
      (∀ c, s.data.head? = some c → isJsSpace c = false) ∧
      (∀ c, s.data.getLast? = some c → isJsSpace c = false) ∧
      ∃ req data,
        (generate ⟨some "key", none, none⟩ (.obj [("transcript", .str "We met.")])
          (fun _ => .json (.obj [("choices",
            .arr [.obj [("message", .obj [("content", .str " A ")]), ("text", .str "B")]])]))
          World.start).2.fetches = [req] ∧
        (fun _ => FetchResult.json (.obj [("choices",
            .arr [.obj [("message", .obj [("content", .str " A ")]), ("text", .str "B")]])]))
          req = .json data ∧
        (getProp data "error").truthy = false ∧
        ((∃ x, getProp (getProp (getIndex0 (getProp data "choices")) "message") "content"
              = .str x ∧ jsTrim x ≠ "" ∧ s = jsTrim x) ∨
         (((getProp (getProp (getIndex0 (getProp data "choices")) "message") "content").isNullish
              = true ∨
            ∃ x, getProp (getProp (getIndex0 (getProp data "choices")) "message") "content"
              = .str x ∧ jsTrim x = "") ∧
          ∃ t, getProp (getIndex0 (getProp data "choices")) "text" = .str t ∧
            s = jsTrim t)) :=
  C10_success_summary ⟨some "key", none, none⟩ (.obj [("transcript", .str "We met.")])
    (fun _ => .json (.obj [("choices",
      .arr [.obj [("message", .obj [("content", .str " A ")]), ("text", .str "B")]])]))
    ⟨200, .obj [("ok", .bool true), ("summary", .str "A")]⟩
    (by
      have h : jsTrim " A " = "A" := by decide
      simp [generate, generateTry, relayReply, summaryOf, optTrim, callTrim, contentOf, textOf,
        firstChoice, getProp, lookup, getIndex0, userPromptOf, toStr, JVal.isNullish,
        JVal.truthy, JVal.isUndefined, resJson, World.start, h])
    (by simp [getProp, lookup])

end MeetingSummary
